import Mathlib

/-!
Verification development for the polymarket copy-trading bot.

The embedding follows the TypeScript sources: `TradeOrderBuilder.copyTrade`
(order-builder/builder.ts), the `onMessage` trade monitor and the
`performRedemption` coordinator (src/index.ts).  Machine floating point
amounts are modelled by rationals, thrown JavaScript exceptions by
`Except String`, and the external collaborators (CLOB gateway, balance
display, allowance refresh) by an environment record holding the outcome
of each awaited call.  Components of the repository that are referenced
but whose sources are not available (utils/holdings.ts, utils/balance.ts,
utils/redeem.ts, order-builder/helpers.ts) are modelled from the
specification text, and each such definition says so in its doc comment.
-/

namespace PolyBot

/-- ASCII variant of JavaScript `toUpperCase`, applied characterwise to the
underlying character list (the strings compared by the bot are plain ASCII
such as side markers and hex wallet addresses). -/
def strUpper (s : String) : String := String.mk (s.data.map Char.toUpper)

/-- ASCII variant of JavaScript `toLowerCase`, applied characterwise. -/
def strLower (s : String) : String := String.mk (s.data.map Char.toLower)

/-- Tests whether the pattern list is an initial segment of the other list. -/
def matchesAt : List Char → List Char → Bool
  | [], _ => true
  | _ :: _, [] => false
  | p :: ps, c :: cs => p == c && matchesAt ps cs

/-- Tests whether the pattern occurs as a contiguous sublist. -/
def containsSub : List Char → List Char → Bool
  | [], pat => matchesAt pat []
  | c :: rest, pat => matchesAt pat (c :: rest) || containsSub rest pat

/-- JavaScript `String.prototype.includes`: substring test. -/
def strIncludes (s pat : String) : Bool := containsSub s.data pat.data

/-- Modelled from the spec: the holdings ledger (src/utils/holdings.ts is not
among the provided sources).  Section 4.1 describes a persisted document
mapping the (market, token) pair to a quantity, embedded here as an
association list. -/
abbrev Ledger := List ((String × String) × ℚ)

/-- Modelled from the spec: `getHoldings` of src/utils/holdings.ts, the §4.1
contract `get(market, token) -> quantity` returning 0 when the key is absent. -/
def getHoldings (l : Ledger) (m t : String) : ℚ :=
  match l with
  | [] => 0
  | (k, q) :: rest => if k = (m, t) then q else getHoldings rest m t

/-- Writes the quantity stored at a (market, token) key, the read-modify-write
step shared by the §4.1 `add` and `remove` mutations. -/
def setHoldings (l : Ledger) (m t : String) (q : ℚ) : Ledger :=
  match l with
  | [] => [((m, t), q)]
  | (k, v) :: rest => if k = (m, t) then (k, q) :: rest else (k, v) :: setHoldings rest m t q

/-- Modelled from the spec: `addHoldings` of src/utils/holdings.ts, the §4.1
contract `add(market, token, amount)`. -/
def addHoldings (l : Ledger) (m t : String) (a : ℚ) : Ledger :=
  setHoldings l m t (getHoldings l m t + a)

/-- Modelled from the spec: `removeHoldings` of src/utils/holdings.ts, the §4.1
contract `remove(market, token, amount)` clamped at 0 (§3: a removal that
would drive the quantity negative clamps to 0). -/
def removeHoldings (l : Ledger) (m t : String) (a : ℚ) : Ledger :=
  setHoldings l m t (max 0 (getHoldings l m t - a))

/-- Trade event payload (src/utils/types.ts TradePayload): the fields the
copy pipeline reads.  `proxyWallet` is optional, matching the optional
chaining `payload.proxyWallet?.toLowerCase()` in src/index.ts. -/
structure TradePayload where
  proxyWallet : Option String := none
  conditionId : String
  asset : String
  side : String
  price : ℚ
  size : ℚ
deriving DecidableEq

/-- Options for `copyTrade` (src/order-builder/types.ts CopyTradeOptions);
the tick size, negative-risk flag and order-type variants do not influence
the properties below and are omitted. -/
structure CopyTradeOptions where
  trade : TradePayload
  sizeMultiplier : ℚ := 1
  maxAmount : Option ℚ := none
deriving DecidableEq

/-- Market order intent (clob-client UserMarketOrder as used by builder.ts). -/
structure UserMarketOrder where
  tokenID : String
  side : String
  amount : ℚ
deriving DecidableEq

/-- Gateway response of `createAndPostMarketOrder`.  The string amounts of
the wire format are modelled by their parsed rational values; `none` stands
for an absent or empty (falsy) field, matching the truthiness tests
`response.makingAmount ? ... : ...` in builder.ts. -/
structure OrderResponse where
  status : Option String := none
  orderID : Option String := none
  makingAmount : Option ℚ := none
  takingAmount : Option ℚ := none
  transactionsHashes : Option (List String) := none
deriving DecidableEq

/-- Result record of `copyTrade` (src/order-builder/types.ts CopyTradeResult). -/
structure CopyTradeResult where
  success : Bool
  orderID : Option String := none
  error : Option String := none
  transactionHashes : Option (List String) := none
  marketOrder : Option UserMarketOrder := none
deriving DecidableEq

/-- Observable external calls issued by `copyTrade`, in program order:
the CLOB balance-allowance refresh, the wallet balance display, the order
submission with the side and amount actually sent, and the post-buy token
approval. -/
inductive BotAction where
  | updateAllowance
  | displayBalance
  | postOrder (side : String) (amount : ℚ)
  | approveAfterBuy
deriving DecidableEq

/-- State threaded through a `copyTrade` run: the holdings ledger document
and the trace of external calls made so far. -/
structure CopyState where
  ledger : Ledger
  actions : List BotAction
deriving DecidableEq

/-- Environment for one `copyTrade` call: the initial ledger document, the
available USDC balance the balance validator reports, and the outcome of
each awaited external call (`Except.error` models a thrown exception,
carrying its message). -/
structure CopyEnv where
  ledger : Ledger
  available : ℚ
  postOrder : Except String OrderResponse
  displayBalanceResult : Except String Unit
  diagDisplayResult : Except String Unit

/-- Balance validation report (src/utils/balance.ts shape used by builder.ts). -/
structure BalanceCheck where
  valid : Bool
  required : ℚ
  available : ℚ
deriving DecidableEq

/-- Modelled from the spec: `validateBuyOrderBalance` of src/utils/balance.ts
is not among the provided sources.  Section 4.2 has it validate the available
quote-currency balance against the intended order amount; the check passes
exactly when the required amount is covered. -/
def validateBuyOrderBalance (available required : ℚ) : BalanceCheck :=
  { valid := decide (required ≤ available), required := required, available := available }

/-- Modelled from the spec: `tradeToMarketOrder` of src/order-builder/helpers.ts
is not among the provided sources.  Section 4.2 has the intended spend be the
event price times size, scaled by the size multiplier and capped at the
maximum order amount when one is configured. -/
def tradeToMarketOrder (opts : CopyTradeOptions) : UserMarketOrder :=
  let raw := opts.trade.price * opts.trade.size * opts.sizeMultiplier
  let amount :=
    match opts.maxAmount with
    | some cap => min raw cap
    | none => raw
  { tokenID := opts.trade.asset, side := "BUY", amount := amount }

/-- SELL branch of `copyTrade` (builder.ts lines 32-126): read the held
quantity, fail without any gateway call when it is not positive, otherwise
submit the entire held quantity and reconcile the ledger against the
response's `makingAmount` (falling back to the requested amount). -/
def sellBranch (opts : CopyTradeOptions) (env : CopyEnv) :
    Except (String × CopyState) (CopyTradeResult × CopyState) :=
  let m := opts.trade.conditionId
  let t := opts.trade.asset
  let holdingsAmount := getHoldings env.ledger m t
  if holdingsAmount ≤ 0 then
    .ok ({ success := false, error := some "No holdings available to sell" },
         { ledger := env.ledger, actions := [] })
  else
    let sellAmount := holdingsAmount
    let st : CopyState := { ledger := env.ledger, actions := [BotAction.postOrder "SELL" sellAmount] }
    match env.postOrder with
    | .error e => .error (e, st)
    | .ok response =>
        let tokensSold :=
          match response.makingAmount with
          | some r => r
          | none => sellAmount
        let ledger2 :=
          if 0 < tokensSold then removeHoldings env.ledger m t tokensSold else env.ledger
        .ok ({ success := true, orderID := response.orderID,
               transactionHashes := response.transactionsHashes,
               marketOrder := some { tokenID := t, side := "SELL", amount := sellAmount } },
             { ledger := ledger2, actions := st.actions })

/-- Execution tail of the BUY branch (builder.ts lines 176-230): submit the
order with the given amount, then reconcile the ledger against the response's
`takingAmount`, falling back to the estimate amount divided by the event
price (price 0 treated as 1 by the `trade.price || 1` guard), and finish with
the best-effort post-buy approval. -/
def executeBuy (opts : CopyTradeOptions) (env : CopyEnv) (amount : ℚ) :
    Except (String × CopyState) (CopyTradeResult × CopyState) :=
  let m := opts.trade.conditionId
  let t := opts.trade.asset
  let acts : List BotAction :=
    [BotAction.updateAllowance, BotAction.displayBalance, BotAction.postOrder "BUY" amount]
  match env.postOrder with
  | .error e => .error (e, { ledger := env.ledger, actions := acts })
  | .ok response =>
      let tokensReceived :=
        match response.takingAmount with
        | some r => r
        | none => 0
      let ledger2 :=
        if 0 < tokensReceived then addHoldings env.ledger m t tokensReceived
        else
          let p := if opts.trade.price = 0 then 1 else opts.trade.price
          let estimatedTokens := amount / p
          if 0 < estimatedTokens then addHoldings env.ledger m t estimatedTokens else env.ledger
      .ok ({ success := true, orderID := response.orderID,
             transactionHashes := response.transactionsHashes,
             marketOrder := some { tokenID := t, side := "BUY", amount := amount } },
           { ledger := ledger2, actions := acts ++ [BotAction.approveAfterBuy] })

/-- BUY branch of `copyTrade` (builder.ts lines 128-230): best-effort
allowance refresh (its own failure is caught and only logged), wallet balance
display (not wrapped, so its failure propagates to the outer catch), balance
validation with zero-balance failure and clamping to the available balance,
then order execution. -/
def buyBranch (opts : CopyTradeOptions) (env : CopyEnv) :
    Except (String × CopyState) (CopyTradeResult × CopyState) :=
  let order0 := tradeToMarketOrder opts
  match env.displayBalanceResult with
  | .error e =>
      .error (e, { ledger := env.ledger,
                   actions := [BotAction.updateAllowance, BotAction.displayBalance] })
  | .ok _ =>
      let check := validateBuyOrderBalance env.available order0.amount
      if check.valid then executeBuy opts env order0.amount
      else if check.available ≤ 0 then
        .ok ({ success := false,
               error := some ("Insufficient USDC balance. Available: " ++ toString check.available) },
             { ledger := env.ledger,
               actions := [BotAction.updateAllowance, BotAction.displayBalance] })
      else executeBuy opts env check.available

/-- Body of `copyTrade` inside its try block (builder.ts lines 26-230):
events whose upper-cased side is "SELL" take the sell branch, every other
side value takes the buy branch. -/
def copyTradeBody (opts : CopyTradeOptions) (env : CopyEnv) :
    Except (String × CopyState) (CopyTradeResult × CopyState) :=
  if strUpper opts.trade.side = "SELL" then sellBranch opts env else buyBranch opts env

/-- Error classifier of the catch block (builder.ts line 235): balance or
allowance problems are recognised by substring tests on the message. -/
def isBalanceOrAllowanceError (e : String) : Bool :=
  strIncludes e "not enough balance" || strIncludes e "allowance"

/-- Diagnostic pass of the catch block (builder.ts lines 240-248): display the
wallet balance, and when the display itself does not throw, attempt the
allowance refresh; both failures are swallowed by the inner catch. -/
def diagActions (env : CopyEnv) : List BotAction :=
  match env.diagDisplayResult with
  | .ok _ => [BotAction.displayBalance, BotAction.updateAllowance]
  | .error _ => [BotAction.displayBalance]

/-- Catch block of `copyTrade` (builder.ts lines 231-259): run the diagnostic
pass for balance or allowance errors, then surface the original message as a
structured failure result. -/
def handleError (env : CopyEnv) (e : String) (st : CopyState) : CopyTradeResult × CopyState :=
  if isBalanceOrAllowanceError e then
    ({ success := false, error := some e },
     { ledger := st.ledger, actions := st.actions ++ diagActions env })
  else
    ({ success := false, error := some e }, st)

/-- Joins the try body with the catch block. -/
def settleRun (env : CopyEnv) (r : Except (String × CopyState) (CopyTradeResult × CopyState)) :
    CopyTradeResult × CopyState :=
  match r with
  | .ok out => out
  | .error (e, st) => handleError env e st

/-- `TradeOrderBuilder.copyTrade` (builder.ts lines 25-260): the branch body
wrapped in the try/catch boundary.  Total by construction: every modelled
exception is routed through `handleError`. -/
def copyTrade (opts : CopyTradeOptions) (env : CopyEnv) : CopyTradeResult × CopyState :=
  settleRun env (copyTradeBody opts env)

/-- Aggregate counts returned by a redemption sweep (src/utils/redeem.ts
result shape read in src/index.ts lines 201-204). -/
structure RedemptionResult where
  total : Nat
  resolved : Nat
  redeemed : Nat
  failed : Nat
deriving DecidableEq

/-- Shared mutable state of the bot's main closure: the
`isCopyTradingPaused` flag of src/index.ts line 33. -/
structure BotState where
  isCopyTradingPaused : Bool
deriving DecidableEq

/-- `performRedemption` of src/index.ts lines 184-224: set the pause flag,
await the sweep (its outcome or thrown error is only logged, by the
try/catch), and clear the flag in the finally block. -/
def performRedemption (sweep : Except String RedemptionResult) (_s : BotState) : BotState :=
  let paused : BotState := { isCopyTradingPaused := true }
  let afterTry : BotState :=
    match sweep with
    | .ok _ => paused
    | .error _ => paused
  { afterTry with isCopyTradingPaused := false }

/-- Configuration the `onMessage` closure of src/index.ts captures: the
tracked wallet, the copy-trading enable flag, and whether the order builder
was successfully initialized. -/
structure MonitorConfig where
  targetWallet : String
  enableCopyTrading : Bool
  builderAvailable : Bool
deriving DecidableEq

/-- One inbound message of the real-time feed as read by `onMessage`. -/
structure InboundMessage where
  topic : String
  msgType : String
  payload : TradePayload
deriving DecidableEq

/-- Case-insensitive wallet comparison of src/index.ts line 105:
`payload.proxyWallet?.toLowerCase() === targetWalletAddress.toLowerCase()`;
an absent wallet never matches. -/
def walletMatches (pw : Option String) (target : String) : Bool :=
  match pw with
  | some w => decide (strLower w = strLower target)
  | none => false

/-- `onMessage` of src/index.ts lines 96-152, reduced to its two observable
effects: whether the matching trade was logged, and whether `copyTrade` was
invoked.  Non-trade messages and foreign wallets produce neither. -/
def onMessage (cfg : MonitorConfig) (paused : Bool) (msg : InboundMessage) : Bool × Bool :=
  if msg.topic = "activity" ∧ msg.msgType = "trades" then
    if walletMatches msg.payload.proxyWallet cfg.targetWallet then
      (true, cfg.builderAvailable && cfg.enableCopyTrading && !paused)
    else (false, false)
  else (false, false)

/-- One (market, token) group examined by the redemption sweep: whether the
market is resolved, whether the held outcome won, and the success flag of
each successive redemption attempt the chain would report. -/
structure MarketEntry where
  resolved : Bool
  winner : Bool
  attempts : List Bool
deriving DecidableEq

/-- Modelled from the spec: the bounded retry of src/utils/redeem.ts (not
among the provided sources); §4.4 retries a market's redemption up to the
maximum attempt count before marking it failed, so it succeeds exactly when
one of the first `maxRetries` attempts does. -/
def redeemWithRetry (maxRetries : Nat) (attempts : List Bool) : Bool :=
  (attempts.take maxRetries).any (fun b => b)

/-- Modelled from the spec: one step of the §4.4 sweep.  Every examined market
counts toward `total`; a resolved one also toward `resolved`; a resolved
winner is redeemed (within the retry budget) or counted `failed`, and either
way the sweep continues with the next market. -/
def sweepStep (maxRetries : Nat) (acc : RedemptionResult) (mkt : MarketEntry) : RedemptionResult :=
  let acc1 := { acc with total := acc.total + 1 }
  if mkt.resolved then
    let acc2 := { acc1 with resolved := acc1.resolved + 1 }
    if mkt.winner then
      if redeemWithRetry maxRetries mkt.attempts then
        { acc2 with redeemed := acc2.redeemed + 1 }
      else
        { acc2 with failed := acc2.failed + 1 }
    else acc2
  else acc1

/-- Modelled from the spec: `autoRedeemResolvedMarkets` of src/utils/redeem.ts
(not among the provided sources), the §4.4 sweep folding over every examined
market with per-market failure isolation. -/
def autoRedeemResolvedMarkets (maxRetries : Nat) (markets : List MarketEntry) : RedemptionResult :=
  markets.foldl (sweepStep maxRetries) { total := 0, resolved := 0, redeemed := 0, failed := 0 }

/-- Redemption-timer gate of src/index.ts line 177:
`if (redeemDurationMinutes && redeemDurationMinutes > 0)`.  The parsed
REDEEM_DURATION value is `none` when the variable is unset (or unparseable,
which is equally falsy); the timer starts only for a positive value. -/
def redemptionTimerStarted (redeemDuration : Option Int) : Bool :=
  match redeemDuration with
  | some n => decide (0 < n)
  | none => false

/-- One timer tick of the running system: when the redemption timer was
started the tick runs `performRedemption`, otherwise nothing happens. -/
def systemStep (started : Bool) (sweep : Except String RedemptionResult) (s : BotState) : BotState :=
  if started then performRedemption sweep s else s

/-- The bot states after each successive timer tick, given the sweep outcome
each tick would produce. -/
def systemRun (started : Bool) (sweeps : List (Except String RedemptionResult)) (s : BotState) :
    List BotState :=
  match sweeps with
  | [] => []
  | sw :: rest =>
      let s2 := systemStep started sw s
      s2 :: systemRun started rest s2

theorem getHoldings_setHoldings (l : Ledger) (m t : String) (q : ℚ) :
    getHoldings (setHoldings l m t q) m t = q := by
  induction l with
  | nil => simp [getHoldings, setHoldings]
  | cons p rest ih =>
      obtain ⟨k, v⟩ := p
      by_cases h : k = (m, t)
      · simp [getHoldings, setHoldings, h]
      · simp [getHoldings, setHoldings, h, ih]

theorem getHoldings_addHoldings (l : Ledger) (m t : String) (a : ℚ) :
    getHoldings (addHoldings l m t a) m t = getHoldings l m t + a := by
  unfold addHoldings
  exact getHoldings_setHoldings l m t (getHoldings l m t + a)

theorem getHoldings_removeHoldings (l : Ledger) (m t : String) (a : ℚ) :
    getHoldings (removeHoldings l m t a) m t = max 0 (getHoldings l m t - a) := by
  unfold removeHoldings
  exact getHoldings_setHoldings l m t (max 0 (getHoldings l m t - a))

/-- C3: a SELL trade event whose (market, token) key holds a zero or negative
ledger quantity makes `copyTrade` return a failure with the "no holdings"
classification, issue no external call at all (in particular no gateway
call), and leave the holdings ledger unchanged. -/
theorem c3_no_holdings_sell (opts : CopyTradeOptions) (env : CopyEnv)
    (hSide : strUpper opts.trade.side = "SELL")
    (hZero : getHoldings env.ledger opts.trade.conditionId opts.trade.asset ≤ 0) :
    copyTrade opts env =
      ({ success := false, error := some "No holdings available to sell" },
       { ledger := env.ledger, actions := [] }) := by
  unfold copyTrade copyTradeBody sellBranch settleRun
  rw [if_pos hSide]
  simp [hZero]

/-- Witness for C3 at a concrete input: an empty ledger and a SELL event. -/
theorem c3_no_holdings_sell_witness :
    copyTrade
        { trade := { conditionId := "m", asset := "t", side := "SELL", price := 1, size := 1 } }
        { ledger := [], available := 0, postOrder := .ok {},
          displayBalanceResult := .ok (), diagDisplayResult := .ok () } =
      ({ success := false, error := some "No holdings available to sell" },
       { ledger := [], actions := [] }) :=
  c3_no_holdings_sell
    { trade := { conditionId := "m", asset := "t", side := "SELL", price := 1, size := 1 } }
    { ledger := [], available := 0, postOrder := .ok {},
      displayBalanceResult := .ok (), diagDisplayResult := .ok () }
    (by decide) (by simp [getHoldings])

/-- C5: however the redemption sweep terminates, successfully or with a
thrown error, `performRedemption` leaves the shared pause flag cleared, so a
sweep can never leave copy trading permanently paused. -/
theorem c5_pause_flag_cleared (sweep : Except String RedemptionResult) (s : BotState) :
    (performRedemption sweep s).isCopyTradingPaused = false := by
  cases sweep <;> rfl

theorem sweepStep_bounds (maxRetries : Nat) (acc : RedemptionResult) (mkt : MarketEntry)
    (h1 : acc.redeemed + acc.failed ≤ acc.resolved) (h2 : acc.resolved ≤ acc.total) :
    (sweepStep maxRetries acc mkt).redeemed + (sweepStep maxRetries acc mkt).failed ≤
        (sweepStep maxRetries acc mkt).resolved ∧
      (sweepStep maxRetries acc mkt).resolved ≤ (sweepStep maxRetries acc mkt).total ∧
      (sweepStep maxRetries acc mkt).total = acc.total + 1 := by
  unfold sweepStep
  cases hres : mkt.resolved <;> cases hwin : mkt.winner <;>
    cases hred : redeemWithRetry maxRetries mkt.attempts <;>
      simp [hres, hwin, hred] <;> omega

theorem sweep_foldl_bounds (maxRetries : Nat) (ms : List MarketEntry) (acc : RedemptionResult)
    (h1 : acc.redeemed + acc.failed ≤ acc.resolved) (h2 : acc.resolved ≤ acc.total) :
    (ms.foldl (sweepStep maxRetries) acc).redeemed +
        (ms.foldl (sweepStep maxRetries) acc).failed ≤
        (ms.foldl (sweepStep maxRetries) acc).resolved ∧
      (ms.foldl (sweepStep maxRetries) acc).resolved ≤
        (ms.foldl (sweepStep maxRetries) acc).total ∧
      (ms.foldl (sweepStep maxRetries) acc).total = acc.total + ms.length := by
  induction ms generalizing acc with
  | nil => simpa using ⟨h1, h2⟩
  | cons mkt rest ih =>
      obtain ⟨g1, g2, g3⟩ := sweepStep_bounds maxRetries acc mkt h1 h2
      obtain ⟨r1, r2, r3⟩ := ih (sweepStep maxRetries acc mkt) g1 g2
      simp only [List.foldl_cons, List.length_cons]
      exact ⟨r1, r2, by omega⟩

/-- C8: every redemption sweep, over any holdings ledger contents and any
retry budget, returns counts satisfying redeemed + failed ≤ resolved ≤ total,
and processes every examined market (total equals the number of markets), so
one market's exhausted retries never abort the sweep over the rest. -/
theorem c8_sweep_counts_invariant (maxRetries : Nat) (markets : List MarketEntry) :
    (autoRedeemResolvedMarkets maxRetries markets).redeemed +
        (autoRedeemResolvedMarkets maxRetries markets).failed ≤
        (autoRedeemResolvedMarkets maxRetries markets).resolved ∧
      (autoRedeemResolvedMarkets maxRetries markets).resolved ≤
        (autoRedeemResolvedMarkets maxRetries markets).total ∧
      (autoRedeemResolvedMarkets maxRetries markets).total = markets.length := by
  have h := sweep_foldl_bounds maxRetries markets
    { total := 0, resolved := 0, redeemed := 0, failed := 0 } (by simp) (by simp)
  simpa [autoRedeemResolvedMarkets] using h

/-- C9: when the configured redemption duration is absent or not positive,
the redemption timer is never started and no tick ever runs a sweep or sets
the pause flag: the bot state after every tick is the unpaused initial
state. -/
theorem c9_redemption_disabled (rd : Option Int) (h : ∀ n, rd = some n → n ≤ 0) :
    redemptionTimerStarted rd = false ∧
      ∀ sweeps : List (Except String RedemptionResult),
        systemRun (redemptionTimerStarted rd) sweeps { isCopyTradingPaused := false } =
          sweeps.map (fun _ => { isCopyTradingPaused := false }) := by
  have hfalse : redemptionTimerStarted rd = false := by
    cases rd with
    | none => rfl
    | some n =>
        have hn := h n rfl
        simp only [redemptionTimerStarted, decide_eq_false_iff_not]
        omega
  refine ⟨hfalse, ?_⟩
  intro sweeps
  rw [hfalse]
  induction sweeps with
  | nil => rfl
  | cons sw rest ih => simp [systemRun, systemStep, ih]

/-- Witness for C9 at the concrete configuration value 0 and one pending
tick. -/
theorem c9_redemption_disabled_witness :
    redemptionTimerStarted (some 0) = false ∧
      systemRun (redemptionTimerStarted (some 0))
          [Except.ok { total := 1, resolved := 0, redeemed := 0, failed := 0 }]
          { isCopyTradingPaused := false } =
        [{ isCopyTradingPaused := false }] := by
  have h := c9_redemption_disabled (some 0) (fun n hn => by injection hn with h2; omega)
  exact ⟨h.1, by
    simpa using h.2 [Except.ok { total := 1, resolved := 0, redeemed := 0, failed := 0 }]⟩

theorem executeBuy_actions_take_two (opts : CopyTradeOptions) (env : CopyEnv) (amount : ℚ) :
    (settleRun env (executeBuy opts env amount)).2.actions.take 2 =
      [BotAction.updateAllowance, BotAction.displayBalance] := by
  unfold executeBuy settleRun handleError
  cases env.postOrder with
  | error e =>
      by_cases hb : isBalanceOrAllowanceError e <;>
        cases env.diagDisplayResult <;> simp [hb, diagActions]
  | ok r => simp

theorem buyRun_actions_take_two (opts : CopyTradeOptions) (env : CopyEnv) :
    (settleRun env (buyBranch opts env)).2.actions.take 2 =
      [BotAction.updateAllowance, BotAction.displayBalance] := by
  unfold buyBranch
  cases hd : env.displayBalanceResult with
  | error e =>
      unfold settleRun handleError
      by_cases hb : isBalanceOrAllowanceError e <;>
        cases env.diagDisplayResult <;> simp [hb, diagActions]
  | ok u =>
      dsimp only
      by_cases hv : (validateBuyOrderBalance env.available (tradeToMarketOrder opts).amount).valid
      · rw [if_pos hv]
        exact executeBuy_actions_take_two opts env (tradeToMarketOrder opts).amount
      · rw [if_neg hv]
        by_cases hz : (validateBuyOrderBalance env.available (tradeToMarketOrder opts).amount).available ≤ 0
        · rw [if_pos hz]
          simp [settleRun]
        · rw [if_neg hz]
          exact executeBuy_actions_take_two opts env
            (validateBuyOrderBalance env.available (tradeToMarketOrder opts).amount).available

/-- C10: a trade event whose upper-cased side differs from "SELL", whatever
the side string is, is processed through the BUY branch of `copyTrade`; in
particular the run starts with the BUY branch's balance-allowance refresh
and balance display. -/
theorem c10_non_sell_takes_buy_branch (opts : CopyTradeOptions) (env : CopyEnv)
    (h : strUpper opts.trade.side ≠ "SELL") :
    copyTrade opts env = settleRun env (buyBranch opts env) ∧
      (copyTrade opts env).2.actions.take 2 =
        [BotAction.updateAllowance, BotAction.displayBalance] := by
  have hb : copyTrade opts env = settleRun env (buyBranch opts env) := by
    unfold copyTrade copyTradeBody
    rw [if_neg h]
  refine ⟨hb, ?_⟩
  rw [hb]
  exact buyRun_actions_take_two opts env

/-- Witness for C10 at a concrete malformed side value. -/
theorem c10_non_sell_takes_buy_branch_witness :
    copyTrade
        { trade := { conditionId := "m", asset := "t", side := "HoDl", price := 1, size := 1 } }
        { ledger := [], available := 1, postOrder := .ok {},
          displayBalanceResult := .ok (), diagDisplayResult := .ok () } =
      settleRun
        { ledger := [], available := 1, postOrder := .ok {},
          displayBalanceResult := .ok (), diagDisplayResult := .ok () }
        (buyBranch
          { trade := { conditionId := "m", asset := "t", side := "HoDl", price := 1, size := 1 } }
          { ledger := [], available := 1, postOrder := .ok {},
            displayBalanceResult := .ok (), diagDisplayResult := .ok () }) ∧
      (copyTrade
        { trade := { conditionId := "m", asset := "t", side := "HoDl", price := 1, size := 1 } }
        { ledger := [], available := 1, postOrder := .ok {},
          displayBalanceResult := .ok (), diagDisplayResult := .ok () }).2.actions.take 2 =
        [BotAction.updateAllowance, BotAction.displayBalance] :=
  c10_non_sell_takes_buy_branch
    { trade := { conditionId := "m", asset := "t", side := "HoDl", price := 1, size := 1 } }
    { ledger := [], available := 1, postOrder := .ok {},
      displayBalanceResult := .ok (), diagDisplayResult := .ok () }
    (by decide)

/-- C6: for an inbound trade-activity message, given an initialized order
builder, `onMessage` invokes `copyTrade` exactly when the payload wallet
matches the tracked wallet case-insensitively, copy trading is enabled and
the pause flag is clear; non-matching wallets produce neither log nor
invocation, matching wallets are always logged, and a matching event during
a pause is logged without any invocation. -/
theorem c6_monitor_filter (cfg : MonitorConfig) (paused : Bool) (msg : InboundMessage)
    (hTopic : msg.topic = "activity") (hType : msg.msgType = "trades")
    (hBuilder : cfg.builderAvailable = true) :
    ((onMessage cfg paused msg).2 = true ↔
        (walletMatches msg.payload.proxyWallet cfg.targetWallet = true ∧
          cfg.enableCopyTrading = true ∧ paused = false)) ∧
      (walletMatches msg.payload.proxyWallet cfg.targetWallet = false →
        onMessage cfg paused msg = (false, false)) ∧
      (walletMatches msg.payload.proxyWallet cfg.targetWallet = true →
        (onMessage cfg paused msg).1 = true) ∧
      (walletMatches msg.payload.proxyWallet cfg.targetWallet = true → paused = true →
        onMessage cfg paused msg = (true, false)) := by
  unfold onMessage
  rw [if_pos (And.intro hTopic hType)]
  cases hw : walletMatches msg.payload.proxyWallet cfg.targetWallet <;>
    cases hcopy : cfg.enableCopyTrading <;> cases paused <;>
      simp [hw, hcopy, hBuilder]

/-- Witness for C6 at a concrete matching message with differing letter
case in the wallet addresses. -/
theorem c6_monitor_filter_witness :
    (onMessage { targetWallet := "0xAbC", enableCopyTrading := true, builderAvailable := true }
        false
        { topic := "activity", msgType := "trades",
          payload := { proxyWallet := some "0xaBc", conditionId := "m", asset := "t",
                       side := "BUY", price := 1, size := 1 } }).2 = true :=
  (c6_monitor_filter
      { targetWallet := "0xAbC", enableCopyTrading := true, builderAvailable := true }
      false
      { topic := "activity", msgType := "trades",
        payload := { proxyWallet := some "0xaBc", conditionId := "m", asset := "t",
                     side := "BUY", price := 1, size := 1 } }
      rfl rfl rfl).1.mpr ⟨by decide, rfl, rfl⟩

/-- C7: every exception raised inside the body of `copyTrade` is caught at
its boundary and returned as a structured failure carrying the original
message, with the ledger state left as it was at the throw point; when the
message indicates a balance or allowance problem, the one-shot diagnostic
pass (balance display, then allowance refresh if the display succeeded) runs
first and the original message is still the surfaced error. -/
theorem c7_exception_boundary (opts : CopyTradeOptions) (env : CopyEnv) (e : String)
    (st : CopyState) (h : copyTradeBody opts env = .error (e, st)) :
    (copyTrade opts env).1.success = false ∧
      (copyTrade opts env).1.error = some e ∧
      (copyTrade opts env).2.ledger = st.ledger ∧
      (isBalanceOrAllowanceError e = true →
        (copyTrade opts env).2.actions = st.actions ++ diagActions env) ∧
      (isBalanceOrAllowanceError e = false →
        (copyTrade opts env).2.actions = st.actions) := by
  unfold copyTrade
  rw [h]
  unfold settleRun handleError
  by_cases hb : isBalanceOrAllowanceError e <;> simp [hb]

/-- Witness for C7: a SELL whose gateway call throws an allowance error. -/
theorem c7_exception_boundary_witness :
    (copyTrade
        { trade := { conditionId := "m", asset := "t", side := "SELL", price := 1, size := 1 } }
        { ledger := [(("m", "t"), 1)], available := 0,
          postOrder := .error "not enough balance or allowance",
          displayBalanceResult := .ok (), diagDisplayResult := .ok () }).1.error =
      some "not enough balance or allowance" ∧
      (copyTrade
        { trade := { conditionId := "m", asset := "t", side := "SELL", price := 1, size := 1 } }
        { ledger := [(("m", "t"), 1)], available := 0,
          postOrder := .error "not enough balance or allowance",
          displayBalanceResult := .ok (), diagDisplayResult := .ok () }).2.actions =
      [BotAction.postOrder "SELL" 1, BotAction.displayBalance, BotAction.updateAllowance] := by
  have hbody : copyTradeBody
      { trade := { conditionId := "m", asset := "t", side := "SELL", price := 1, size := 1 } }
      { ledger := [(("m", "t"), 1)], available := 0,
        postOrder := .error "not enough balance or allowance",
        displayBalanceResult := .ok (), diagDisplayResult := .ok () } =
      .error ("not enough balance or allowance",
        { ledger := [(("m", "t"), 1)],
          actions := [BotAction.postOrder "SELL" (getHoldings [(("m", "t"), 1)] "m" "t")] }) := by
    unfold copyTradeBody sellBranch
    rw [if_pos (by decide : strUpper "SELL" = "SELL")]
    norm_num [getHoldings]
  have h := c7_exception_boundary _ _ _ _ hbody
  refine ⟨h.2.1, ?_⟩
  have hacts := h.2.2.2.1 (by decide)
  rw [hacts]
  norm_num [getHoldings, diagActions]

/-- C1: a SELL trade event with a positive held quantity submits that entire
quantity as the sell amount; after a successful gateway call the ledger is
decremented by exactly the reported making amount when one is present (the
§4.1 remove operation clamping the stored quantity at zero), and by the
originally requested amount — driving the quantity to exactly zero — when it
is absent. -/
theorem c1_full_exit_sell (opts : CopyTradeOptions) (env : CopyEnv) (resp : OrderResponse)
    (hSide : strUpper opts.trade.side = "SELL")
    (hPos : 0 < getHoldings env.ledger opts.trade.conditionId opts.trade.asset)
    (hPost : env.postOrder = .ok resp) :
    (copyTrade opts env).1.success = true ∧
      (copyTrade opts env).2.actions =
        [BotAction.postOrder "SELL"
          (getHoldings env.ledger opts.trade.conditionId opts.trade.asset)] ∧
      (∀ r, resp.makingAmount = some r → 0 ≤ r →
        getHoldings (copyTrade opts env).2.ledger opts.trade.conditionId opts.trade.asset =
          max 0 (getHoldings env.ledger opts.trade.conditionId opts.trade.asset - r)) ∧
      (∀ r, resp.makingAmount = some r → 0 ≤ r →
          r ≤ getHoldings env.ledger opts.trade.conditionId opts.trade.asset →
        getHoldings (copyTrade opts env).2.ledger opts.trade.conditionId opts.trade.asset =
          getHoldings env.ledger opts.trade.conditionId opts.trade.asset - r) ∧
      (resp.makingAmount = none →
        getHoldings (copyTrade opts env).2.ledger opts.trade.conditionId opts.trade.asset = 0) := by
  have hq : ¬ getHoldings env.ledger opts.trade.conditionId opts.trade.asset ≤ 0 :=
    not_le.mpr hPos
  unfold copyTrade copyTradeBody sellBranch settleRun
  rw [if_pos hSide, if_neg hq, hPost]
  dsimp only
  refine ⟨rfl, rfl, ?_, ?_, ?_⟩
  · intro r hr h0
    rw [hr]
    dsimp only
    by_cases hlt : (0 : ℚ) < r
    · rw [if_pos hlt, getHoldings_removeHoldings]
    · rw [if_neg hlt]
      have hr0 : r = 0 := le_antisymm (not_lt.mp hlt) h0
      rw [hr0, sub_zero, max_eq_right hPos.le]
  · intro r hr h0 hle
    rw [hr]
    dsimp only
    by_cases hlt : (0 : ℚ) < r
    · rw [if_pos hlt, getHoldings_removeHoldings, max_eq_right (sub_nonneg.mpr hle)]
    · rw [if_neg hlt]
      have hr0 : r = 0 := le_antisymm (not_lt.mp hlt) h0
      rw [hr0, sub_zero]
  · intro hr
    rw [hr]
    dsimp only
    rw [if_pos hPos, getHoldings_removeHoldings, sub_self, max_self]

/-- Witness for C1 at ledger quantity 5: a sell with reported making amount
5 and a sell with no reported making amount both leave the quantity at 0,
and the full held quantity 5 is the submitted sell amount. -/
theorem c1_full_exit_sell_witness :
    getHoldings
        (copyTrade
          { trade := { conditionId := "m", asset := "t", side := "SELL", price := 1, size := 5 } }
          { ledger := [(("m", "t"), 5)], available := 0,
            postOrder := .ok { makingAmount := some 5 },
            displayBalanceResult := .ok (), diagDisplayResult := .ok () }).2.ledger "m" "t" = 0 ∧
      getHoldings
        (copyTrade
          { trade := { conditionId := "m", asset := "t", side := "SELL", price := 1, size := 5 } }
          { ledger := [(("m", "t"), 5)], available := 0, postOrder := .ok {},
            displayBalanceResult := .ok (), diagDisplayResult := .ok () }).2.ledger "m" "t" = 0 ∧
      (copyTrade
          { trade := { conditionId := "m", asset := "t", side := "SELL", price := 1, size := 5 } }
          { ledger := [(("m", "t"), 5)], available := 0,
            postOrder := .ok { makingAmount := some 5 },
            displayBalanceResult := .ok (), diagDisplayResult := .ok () }).2.actions =
        [BotAction.postOrder "SELL" 5] := by
  have hpos : (0 : ℚ) < getHoldings [(("m", "t"), 5)] "m" "t" := by norm_num [getHoldings]
  have hA := c1_full_exit_sell
    { trade := { conditionId := "m", asset := "t", side := "SELL", price := 1, size := 5 } }
    { ledger := [(("m", "t"), 5)], available := 0,
      postOrder := .ok { makingAmount := some 5 },
      displayBalanceResult := .ok (), diagDisplayResult := .ok () }
    { makingAmount := some 5 } (by decide) hpos rfl
  have hB := c1_full_exit_sell
    { trade := { conditionId := "m", asset := "t", side := "SELL", price := 1, size := 5 } }
    { ledger := [(("m", "t"), 5)], available := 0, postOrder := .ok {},
      displayBalanceResult := .ok (), diagDisplayResult := .ok () }
    {} (by decide) hpos rfl
  have hval : getHoldings [(("m", "t"), (5 : ℚ))] "m" "t" = 5 := by norm_num [getHoldings]
  refine ⟨?_, hB.2.2.2.2 rfl, ?_⟩
  · have := hA.2.2.2.1 5 rfl (by norm_num) (by rw [hval])
    rw [this, hval]
    norm_num
  · rw [hA.2.1, hval]

theorem executeBuy_ledger (opts : CopyTradeOptions) (env : CopyEnv) (resp : OrderResponse)
    (amount : ℚ) (hPost : env.postOrder = .ok resp) (hPrice : 0 < opts.trade.price) :
    (∀ r, resp.takingAmount = some r → 0 < r →
      getHoldings (settleRun env (executeBuy opts env amount)).2.ledger
          opts.trade.conditionId opts.trade.asset =
        getHoldings env.ledger opts.trade.conditionId opts.trade.asset + r) ∧
      (∀ r, resp.takingAmount = some r → r ≤ 0 → 0 < amount / opts.trade.price →
        getHoldings (settleRun env (executeBuy opts env amount)).2.ledger
            opts.trade.conditionId opts.trade.asset =
          getHoldings env.ledger opts.trade.conditionId opts.trade.asset +
            amount / opts.trade.price) ∧
      (∀ r, resp.takingAmount = some r → r ≤ 0 → amount / opts.trade.price ≤ 0 →
        (settleRun env (executeBuy opts env amount)).2.ledger = env.ledger) ∧
      (resp.takingAmount = none → 0 < amount / opts.trade.price →
        getHoldings (settleRun env (executeBuy opts env amount)).2.ledger
            opts.trade.conditionId opts.trade.asset =
          getHoldings env.ledger opts.trade.conditionId opts.trade.asset +
            amount / opts.trade.price) ∧
      (resp.takingAmount = none → amount / opts.trade.price ≤ 0 →
        (settleRun env (executeBuy opts env amount)).2.ledger = env.ledger) := by
  have hp : (if opts.trade.price = 0 then 1 else opts.trade.price) = opts.trade.price :=
    if_neg hPrice.ne'
  unfold executeBuy settleRun
  rw [hPost]
  dsimp only
  rw [hp]
  refine ⟨?_, ?_, ?_, ?_, ?_⟩
  · intro r hr h0
    rw [hr]
    dsimp only
    rw [if_pos h0, getHoldings_addHoldings]
  · intro r hr h0 hq
    rw [hr]
    dsimp only
    rw [if_neg (not_lt.mpr h0), if_pos hq, getHoldings_addHoldings]
  · intro r hr h0 hq
    rw [hr]
    dsimp only
    rw [if_neg (not_lt.mpr h0), if_neg (not_lt.mpr hq)]
  · intro hr hq
    rw [hr]
    dsimp only
    rw [if_neg (lt_irrefl (0 : ℚ)), if_pos hq, getHoldings_addHoldings]
  · intro hr hq
    rw [hr]
    dsimp only
    rw [if_neg (lt_irrefl (0 : ℚ)), if_neg (not_lt.mpr hq)]

theorem executeBuy_postOrder_mem (opts : CopyTradeOptions) (env : CopyEnv) (amount : ℚ) :
    BotAction.postOrder "BUY" amount ∈ (settleRun env (executeBuy opts env amount)).2.actions ∧
      ∀ a, BotAction.postOrder "BUY" a ∈ (settleRun env (executeBuy opts env amount)).2.actions →
        a = amount := by
  unfold executeBuy settleRun handleError
  cases env.postOrder with
  | error e =>
      dsimp only
      by_cases hb : isBalanceOrAllowanceError e
      · rw [if_pos hb]
        unfold diagActions
        cases env.diagDisplayResult <;> simp
      · rw [if_neg hb]
        simp
  | ok r => simp

/-- C4: a BUY trade event with a positive intended order amount fails with
the insufficient-balance classification and no gateway call when the
available balance is zero or less; when the available balance is positive
but below the intended amount, the order is submitted with exactly the
available balance as its amount (and succeeds whenever the gateway call
returns). -/
theorem c4_buy_balance_validation (opts : CopyTradeOptions) (env : CopyEnv)
    (hSide : strUpper opts.trade.side ≠ "SELL")
    (hDisp : env.displayBalanceResult = .ok ()) :
    (0 < (tradeToMarketOrder opts).amount → env.available ≤ 0 →
      copyTrade opts env =
        ({ success := false,
           error := some ("Insufficient USDC balance. Available: " ++ toString env.available) },
         { ledger := env.ledger,
           actions := [BotAction.updateAllowance, BotAction.displayBalance] })) ∧
      (0 < env.available → env.available < (tradeToMarketOrder opts).amount →
        BotAction.postOrder "BUY" env.available ∈ (copyTrade opts env).2.actions ∧
          (∀ a, BotAction.postOrder "BUY" a ∈ (copyTrade opts env).2.actions →
            a = env.available) ∧
          ∀ resp, env.postOrder = .ok resp → (copyTrade opts env).1.success = true) := by
  have hbuy : copyTrade opts env = settleRun env (buyBranch opts env) := by
    unfold copyTrade copyTradeBody
    rw [if_neg hSide]
  constructor
  · intro hPos hZ
    have hnle : ¬ ((tradeToMarketOrder opts).amount ≤ env.available) :=
      not_le.mpr (lt_of_le_of_lt hZ hPos)
    rw [hbuy]
    unfold buyBranch
    rw [hDisp]
    dsimp only
    unfold validateBuyOrderBalance
    dsimp only
    rw [if_neg (by simpa using hnle), if_pos hZ]
    rfl
  · intro hA hLt
    have hnle : ¬ ((tradeToMarketOrder opts).amount ≤ env.available) := not_le.mpr hLt
    have hnz : ¬ (env.available ≤ 0) := not_le.mpr hA
    rw [hbuy]
    unfold buyBranch
    rw [hDisp]
    dsimp only
    unfold validateBuyOrderBalance
    dsimp only
    rw [if_neg (by simpa using hnle), if_neg hnz]
    refine ⟨(executeBuy_postOrder_mem opts env env.available).1,
      (executeBuy_postOrder_mem opts env env.available).2, ?_⟩
    intro resp hresp
    unfold executeBuy settleRun
    rw [hresp]

/-- Witness for C4: with intended amount 4 and available balance 0 the call
fails without a gateway call; with available balance 2 the submitted amount
is clamped to 2. -/
theorem c4_buy_balance_validation_witness :
    copyTrade
        { trade := { conditionId := "m", asset := "t", side := "BUY", price := 1, size := 4 } }
        { ledger := [], available := 0, postOrder := .ok {},
          displayBalanceResult := .ok (), diagDisplayResult := .ok () } =
      ({ success := false,
         error := some ("Insufficient USDC balance. Available: " ++ toString (0 : ℚ)) },
       { ledger := [], actions := [BotAction.updateAllowance, BotAction.displayBalance] }) ∧
      BotAction.postOrder "BUY" 2 ∈
        (copyTrade
          { trade := { conditionId := "m", asset := "t", side := "BUY", price := 1, size := 4 } }
          { ledger := [], available := 2, postOrder := .ok {},
            displayBalanceResult := .ok (), diagDisplayResult := .ok () }).2.actions := by
  constructor
  · exact (c4_buy_balance_validation
      { trade := { conditionId := "m", asset := "t", side := "BUY", price := 1, size := 4 } }
      { ledger := [], available := 0, postOrder := .ok {},
        displayBalanceResult := .ok (), diagDisplayResult := .ok () }
      (by decide) rfl).1 (by norm_num [tradeToMarketOrder]) le_rfl
  · exact ((c4_buy_balance_validation
      { trade := { conditionId := "m", asset := "t", side := "BUY", price := 1, size := 4 } }
      { ledger := [], available := 2, postOrder := .ok {},
        displayBalanceResult := .ok (), diagDisplayResult := .ok () }
      (by decide) rfl).2 (by norm_num) (by norm_num [tradeToMarketOrder])).1

/-- Counterexample for C2 as stated: the gateway reports the tokens-received
figure 0, so the claim requires the ledger entry to be incremented by exactly
0 and stay at 0, but the code treats the non-positive figure like an absent
one and adds the estimate 2 ÷ (1/2) = 4. -/
theorem c2_reported_zero_counterexample :
    getHoldings
        (copyTrade
          { trade := { conditionId := "m", asset := "t", side := "BUY", price := 1/2, size := 4 } }
          { ledger := [], available := 10, postOrder := .ok { takingAmount := some 0 },
            displayBalanceResult := .ok (), diagDisplayResult := .ok () }).2.ledger "m" "t" = 4 ∧
      getHoldings
        (copyTrade
          { trade := { conditionId := "m", asset := "t", side := "BUY", price := 1/2, size := 4 } }
          { ledger := [], available := 10, postOrder := .ok { takingAmount := some 0 },
            displayBalanceResult := .ok (), diagDisplayResult := .ok () }).2.ledger "m" "t" ≠ 0 := by
  have hsel : copyTrade
      { trade := { conditionId := "m", asset := "t", side := "BUY", price := 1/2, size := 4 } }
      { ledger := [], available := 10, postOrder := .ok { takingAmount := some 0 },
        displayBalanceResult := .ok (), diagDisplayResult := .ok () } =
      settleRun
        { ledger := [], available := 10, postOrder := .ok { takingAmount := some 0 },
          displayBalanceResult := .ok (), diagDisplayResult := .ok () }
        (executeBuy
          { trade := { conditionId := "m", asset := "t", side := "BUY", price := 1/2, size := 4 } }
          { ledger := [], available := 10, postOrder := .ok { takingAmount := some 0 },
            displayBalanceResult := .ok (), diagDisplayResult := .ok () }
          ((1 : ℚ)/2 * 4 * 1)) := by
    unfold copyTrade copyTradeBody buyBranch tradeToMarketOrder validateBuyOrderBalance
    dsimp only
    rw [if_neg (by decide : ¬ strUpper "BUY" = "SELL")]
    rw [if_pos (by norm_num : decide ((1 : ℚ)/2 * 4 * 1 ≤ 10) = true)]
  have hval : getHoldings
      (copyTrade
        { trade := { conditionId := "m", asset := "t", side := "BUY", price := 1/2, size := 4 } }
        { ledger := [], available := 10, postOrder := .ok { takingAmount := some 0 },
          displayBalanceResult := .ok (), diagDisplayResult := .ok () }).2.ledger "m" "t" = 4 := by
    rw [hsel]
    have h2 := (executeBuy_ledger
      { trade := { conditionId := "m", asset := "t", side := "BUY", price := 1/2, size := 4 } }
      { ledger := [], available := 10, postOrder := .ok { takingAmount := some 0 },
        displayBalanceResult := .ok (), diagDisplayResult := .ok () }
      { takingAmount := some 0 } ((1 : ℚ)/2 * 4 * 1) rfl
      (by norm_num)).2.1 0 rfl le_rfl (by norm_num)
    dsimp only at h2
    rw [h2]
    norm_num [getHoldings]
  exact ⟨hval, by rw [hval]; norm_num⟩

/-- C2 (amended): for a BUY trade event that reaches execution, if the
gateway reports a positive tokens-received figure the ledger entry for
(market, token) is incremented by exactly that figure; if the figure is
absent or not positive, the ledger is incremented by the estimate
submitted-amount ÷ event price when that estimate is positive, and left
unchanged otherwise. -/
theorem c2_buy_reconciliation_amended (opts : CopyTradeOptions) (env : CopyEnv)
    (resp : OrderResponse)
    (hSide : strUpper opts.trade.side ≠ "SELL")
    (hDisp : env.displayBalanceResult = .ok ())
    (hAvail : 0 < env.available)
    (hPost : env.postOrder = .ok resp)
    (hPrice : 0 < opts.trade.price) :
    (∀ r, resp.takingAmount = some r → 0 < r →
      getHoldings (copyTrade opts env).2.ledger opts.trade.conditionId opts.trade.asset =
        getHoldings env.ledger opts.trade.conditionId opts.trade.asset + r) ∧
      (∀ r, resp.takingAmount = some r → r ≤ 0 →
        0 < (if (tradeToMarketOrder opts).amount ≤ env.available then
              (tradeToMarketOrder opts).amount else env.available) / opts.trade.price →
        getHoldings (copyTrade opts env).2.ledger opts.trade.conditionId opts.trade.asset =
          getHoldings env.ledger opts.trade.conditionId opts.trade.asset +
            (if (tradeToMarketOrder opts).amount ≤ env.available then
              (tradeToMarketOrder opts).amount else env.available) / opts.trade.price) ∧
      (∀ r, resp.takingAmount = some r → r ≤ 0 →
        (if (tradeToMarketOrder opts).amount ≤ env.available then
          (tradeToMarketOrder opts).amount else env.available) / opts.trade.price ≤ 0 →
        (copyTrade opts env).2.ledger = env.ledger) ∧
      (resp.takingAmount = none →
        0 < (if (tradeToMarketOrder opts).amount ≤ env.available then
              (tradeToMarketOrder opts).amount else env.available) / opts.trade.price →
        getHoldings (copyTrade opts env).2.ledger opts.trade.conditionId opts.trade.asset =
          getHoldings env.ledger opts.trade.conditionId opts.trade.asset +
            (if (tradeToMarketOrder opts).amount ≤ env.available then
              (tradeToMarketOrder opts).amount else env.available) / opts.trade.price) ∧
      (resp.takingAmount = none →
        (if (tradeToMarketOrder opts).amount ≤ env.available then
          (tradeToMarketOrder opts).amount else env.available) / opts.trade.price ≤ 0 →
        (copyTrade opts env).2.ledger = env.ledger) := by
  have hsel : copyTrade opts env =
      settleRun env (executeBuy opts env
        (if (tradeToMarketOrder opts).amount ≤ env.available then
          (tradeToMarketOrder opts).amount else env.available)) := by
    unfold copyTrade copyTradeBody
    rw [if_neg hSide]
    unfold buyBranch
    rw [hDisp]
    dsimp only
    unfold validateBuyOrderBalance
    dsimp only
    by_cases hle : (tradeToMarketOrder opts).amount ≤ env.available
    · rw [if_pos (by simpa using hle), if_pos hle]
    · rw [if_neg (by simpa using hle), if_neg (not_le.mpr hAvail), if_neg hle]
  rw [hsel]
  exact executeBuy_ledger opts env resp _ hPost hPrice

/-- Witness for the amended C2: a reported positive figure 3 is added to the
existing quantity 1. -/
theorem c2_buy_reconciliation_amended_witness :
    getHoldings
        (copyTrade
          { trade := { conditionId := "m", asset := "t", side := "BUY", price := 1/2, size := 4 } }
          { ledger := [(("m", "t"), 1)], available := 10,
            postOrder := .ok { takingAmount := some 3 },
            displayBalanceResult := .ok (), diagDisplayResult := .ok () }).2.ledger "m" "t" = 4 := by
  have h := (c2_buy_reconciliation_amended
    { trade := { conditionId := "m", asset := "t", side := "BUY", price := 1/2, size := 4 } }
    { ledger := [(("m", "t"), 1)], available := 10,
      postOrder := .ok { takingAmount := some 3 },
      displayBalanceResult := .ok (), diagDisplayResult := .ok () }
    { takingAmount := some 3 }
    (by decide) rfl (by norm_num) rfl (by norm_num)).1 3 rfl (by norm_num)
  dsimp only at h
  rw [h]
  norm_num [getHoldings]

end PolyBot
